import Mathlib

/-!
Verification of the Liquidity Collision Detection & Mitigation Engine
(CFO_AGENTS/Liquidity_and_Collision_Detection_Agent/agent.py) and the
91-day Forecast Generator (CFO_AGENTS/Forecast_Agent/agent.py).

Modelling conventions (shallow embedding):
* Python floats are modelled as rationals (ℚ); calendar dates as integers
  (day ordinals), so date + timedelta(days = n) becomes d + n and
  subtraction of dates gives the day difference directly.
* Python dicts keyed by date strings become association lists keyed by ℤ
  in insertion order; dict membership / .get with default are explicit
  lookups.
* Network fetches are parameters of each pipeline stage: an Except value
  models the try/except around the HTTP call (.error e corresponds to the
  exception branch).
* The trained RandomForest regressor is an opaque function parameter
  (List ℚ → ℚ) applied to the feature vector that the source builds; the
  calendar decomposition date -> (weekday, day-of-month, month) is likewise
  an opaque parameter since only the opaque model consumes those fields.
-/

/-- Floor of a rational, computed directly from the numerator and
denominator with Euclidean division (the denominator is positive, so this
is the mathematical floor). -/
def ratFloor (q : ℚ) : ℤ := Int.ediv q.num q.den

/-- Python's round-half-to-even on a rational, returning an integer.
This models CPython's round(x) semantics used via round(x, 2). -/
def pyRound (q : ℚ) : ℤ :=
  if q - (ratFloor q : ℚ) < 1/2 then ratFloor q
  else if (1 : ℚ)/2 < q - (ratFloor q : ℚ) then ratFloor q + 1
  else if ratFloor q % 2 = 0 then ratFloor q else ratFloor q + 1

/-- Python's round(x, 2): round half-to-even at two decimal places. -/
def round2 (q : ℚ) : ℚ := (pyRound (q * 100) : ℚ) / 100

/-- Lowercase a string character-by-character (models Python str.lower for
the ASCII category/status strings this code compares). -/
def strLower (s : String) : String := String.mk (s.toList.map Char.toLower)

/-- List-of-chars version of startswith. -/
def charsStart : List Char → List Char → Bool
  | [], _ => true
  | _ :: _, [] => false
  | a :: as, b :: bs => a == b && charsStart as bs

/-- Substring occurrence test on char lists (models Python needle in hay). -/
def charsSub (needle : List Char) : List Char → Bool
  | [] => needle.isEmpty
  | c :: rest => charsStart needle (c :: rest) || charsSub needle rest

/-- Substring occurrence test on strings (models Python needle in hay). -/
def strSub (needle hay : String) : Bool := charsSub needle.toList hay.toList

/-- Insert a behind every element b with keep b a = true (the stable-sort
insertion step: earlier elements with equal keys stay in front). -/
def insertKeep {α : Type} (keep : α → α → Bool) (a : α) : List α → List α
  | [] => [a]
  | b :: rest =>
      if keep b a then b :: insertKeep keep a rest else a :: b :: rest

/-- Stable sort by repeated insertion, processing elements in list order.
With keep b a = (key a ≤ key b) this reproduces Python's stable
list.sort(key=key, reverse=True) exactly; with keep b a = (b ≤ a) it
reproduces sorted(l). -/
def stableSortBy {α : Type} (keep : α → α → Bool) (l : List α) : List α :=
  l.foldl (fun acc a => insertKeep keep a acc) []

/-!
Data model of the Collision Agent
(Liquidity_and_Collision_Detection_Agent/agent.py).
-/

/-- One forecast entry as consumed by detect_collisions: only the date and
predicted_balance fields are read there. -/
structure ForecastItem where
  date : ℤ
  predicted_balance : ℚ
deriving Repr, DecidableEq, Inhabited

/-- One line item stored in a mandatory-expense bucket (category already
lowercased by get_mandatory_expenses). -/
structure BillItem where
  category : String
  amount : ℚ
  due_date : ℤ
deriving Repr, DecidableEq, Inhabited

/-- A mandatory-expense bucket for one due date. -/
structure Bucket where
  total : ℚ
  items : List BillItem
  categories : List String
deriving Repr, DecidableEq, Inhabited

/-- A raw bill as fetched from the bills endpoint: the category string, the
due date as parsed by _parse_date (none when unparsable) and the amount as
converted by _to_float. -/
structure RawBill where
  category : String
  due_date : Option ℤ
  amount : ℚ
deriving Repr, DecidableEq, Inhabited

/-- A customer record used during mitigation. -/
structure Customer where
  customer_id : ℤ
  reliability : ℚ
deriving Repr, DecidableEq, Inhabited

/-- An open invoice used during mitigation: status string, remaining amount
(first non-null of remaining_amount / outstanding / amount_due via
_to_float), customer id and parsed due date. -/
structure Invoice where
  status : String
  remaining : ℚ
  customer_id : ℤ
  due_date : Option ℤ
deriving Repr, DecidableEq, Inhabited

/-- One entry of top_customers_for_collection in the accelerate lever. -/
structure CustomerTarget where
  customer_id : ℤ
  amount : ℚ
  due_date : Option ℤ := none
  reliability_score : ℚ
  collection_probability : ℚ
deriving Repr, DecidableEq, Inhabited

/-- One mitigation lever dict: the fields shared by all four variants. -/
structure Lever where
  lever : String
  priority : ℤ
  potential_amount : ℚ
  implementation_time_days : ℤ
  success_probability : ℚ
  target_customers : List CustomerTarget := []
deriving Repr, DecidableEq, Inhabited

/-- A collision dict. Detection fills the first block of fields; the
severity pass then assigns severity_score / severity / days_to_resolve and
the mitigation pass assigns the last three fields, mirroring the in-place
dict mutation of the source. -/
structure Collision where
  collision_date : ℤ
  predicted_balance : ℚ
  mandatory_expenses : ℚ
  balance_after_mandatory : ℚ
  deficit_amount : ℚ
  credit_can_cover : Bool
  days_from_now : ℤ
  expense_categories : List String
  bills : List BillItem
  severity_score : ℚ := 0
  severity : String := ""
  days_to_resolve : ℤ := 0
  mitigation_levers : List Lever := []
  total_mitigation_potential : ℚ := 0
  can_be_mitigated : Bool := false
deriving Repr, DecidableEq, Inhabited

/-- Lookup in an insertion-ordered association list (Python dict.get). -/
def alistLookup {α : Type} (m : List (ℤ × α)) (k : ℤ) : Option α :=
  (m.find? (fun p => p.1 == k)).map Prod.snd

/-- The mandatory-keyword list exactly as written in the source
(note the literal emf where the spec says emi). -/
def mandatory_categories : List String :=
  ["payroll", "salary", "rent", "loan", "emf", "gst", "tax", "statutory"]

/-- Python is_mandatory test: any keyword occurring as a substring of the
lowercased category. -/
def isMandatoryCategory (category : String) : Bool :=
  mandatory_categories.any (fun cat => strSub cat category)

/-- Insert one mandatory bill into the date-keyed bucket map, preserving
dict insertion order (update in place when the key exists, append new keys
at the end). -/
def bucketInsert (m : List (ℤ × Bucket)) (key : ℤ) (item : BillItem) :
    List (ℤ × Bucket) :=
  match m with
  | [] =>
      [(key, { total := item.amount, items := [item],
               categories := [item.category] })]
  | (k, b) :: rest =>
      if k = key then
        (k, { total := b.total + item.amount,
              items := b.items ++ [item],
              categories :=
                if item.category ∈ b.categories then b.categories
                else b.categories ++ [item.category] }) :: rest
      else (k, b) :: bucketInsert rest key item

/-- Embedding of get_mandatory_expenses lines 221-252: bills without a
parseable due date are skipped; otherwise bills whose lowercased category
matches a mandatory keyword are accumulated into per-date buckets. -/
def get_mandatory_expenses (bills : List RawBill) : List (ℤ × Bucket) :=
  bills.foldl
    (fun m bill =>
      match bill.due_date with
      | none => m
      | some due =>
          let category := strLower bill.category
          if isMandatoryCategory category then
            bucketInsert m due
              { category := category, amount := bill.amount, due_date := due }
          else m)
    []

/-- Total of all buckets (state total_mandatory_91d). -/
def totalMandatory (m : List (ℤ × Bucket)) : ℚ :=
  (m.map (fun p => p.2.total)).sum

/-- The bucket detect_collisions reads for a date: dict.get with an empty
default (lines 318, 339-340). -/
def bucketFor (mandatory : List (ℤ × Bucket)) (d : ℤ) : Bucket :=
  (alistLookup mandatory d).getD { total := 0, items := [], categories := [] }

/-- Embedding of the per-forecast-item body of detect_collisions lines
313-343: returns some collision when balance_after_mandatory is below the
minimum-balance floor. -/
def mkCollision (today : ℤ) (minimum_balance available_credit : ℚ)
    (mandatory : List (ℤ × Bucket)) (item : ForecastItem) : Option Collision :=
  let bucket := bucketFor mandatory item.date
  let balance_after_mandatory := item.predicted_balance - bucket.total
  if balance_after_mandatory < minimum_balance then
    let deficit := minimum_balance - balance_after_mandatory
    some
      { collision_date := item.date
        predicted_balance := item.predicted_balance
        mandatory_expenses := bucket.total
        balance_after_mandatory := balance_after_mandatory
        deficit_amount := |deficit|
        credit_can_cover := decide (deficit ≤ available_credit)
        days_from_now := item.date - today
        expense_categories := bucket.categories
        bills := bucket.items }
  else none

/-- Embedding of the detect_collisions loop: one optional collision per
forecast item, in forecast order. -/
def detect_collisions (today : ℤ) (minimum_balance available_credit : ℚ)
    (mandatory : List (ℤ × Bucket)) (forecast : List ForecastItem) :
    List Collision :=
  forecast.filterMap (mkCollision today minimum_balance available_credit mandatory)

/-- The unrounded severity formula of analyze_severity lines 371-375. -/
def severityRaw (c : Collision) : ℚ :=
  let proximity_score := max 0 (100 - (c.days_from_now : ℚ) * 2)
  let magnitude_score := min 100 (c.deficit_amount / 1000000000 * 100)
  let credit_score : ℚ := if c.credit_can_cover then 0 else 50
  proximity_score * (4/10) + magnitude_score * (35/100) + credit_score * (25/100)

/-- The severity label thresholds of analyze_severity lines 377-384,
applied to the unrounded score as in the source. -/
def severityLabel (score : ℚ) : String :=
  if score ≥ 80 then "critical"
  else if score ≥ 60 then "high"
  else if score ≥ 40 then "medium"
  else "low"

/-- Embedding of the per-collision body of analyze_severity lines 364-388:
stores the score rounded to two decimals, the label computed from the
unrounded score, and days_to_resolve. -/
def addSeverity (c : Collision) : Collision :=
  { c with
      severity_score := round2 (severityRaw c)
      severity := severityLabel (severityRaw c)
      days_to_resolve := max 1 (c.days_from_now - 2) }

/-- Embedding of analyze_severity lines 364-391: score every collision,
then sort descending by severity_score. Python list.sort(key, reverse=True)
is a stable descending sort, which stableSortBy with this keep predicate
reproduces exactly. -/
def analyze_severity (collisions : List Collision) : List Collision :=
  stableSortBy (fun b a => decide (a.severity_score ≤ b.severity_score))
    (collisions.map addSeverity)

/-!
Mitigation generation (generate_mitigation, lines 398-584).
-/

/-- Accumulate the accelerate-collections scan over invoices (lines
452-474): open/partial/unpaid invoices due strictly before the collision
date add their remaining amount to the potential and append a customer
target whose reliability defaults to 0.5 when the customer is unknown. -/
def accelerateScan (customers : List Customer) (coll_date : ℤ)
    (invoices : List Invoice) : ℚ × List CustomerTarget :=
  invoices.foldl
    (fun acc inv =>
      if strLower inv.status ∈ ["open", "partial", "unpaid"] then
        match inv.due_date with
        | some due =>
            if due < coll_date then
              let reliability :=
                ((customers.find? (fun c => c.customer_id == inv.customer_id)).map
                  Customer.reliability).getD (1/2)
              (acc.1 + inv.remaining,
               acc.2 ++ [{ customer_id := inv.customer_id
                           amount := inv.remaining
                           due_date := inv.due_date
                           reliability_score := reliability
                           collection_probability := reliability * (9/10) }])
            else acc
        | none => acc
      else acc)
    (0, [])

/-- Categories excluded from the defer-payables lever (line 504). -/
def nonDeferrable : List String := ["payroll", "salary", "statutory", "tax", "gst"]

/-- Embedding of the per-collision body of generate_mitigation lines
443-572: build the four optional levers in fixed order, then attach the
probability-weighted total and the 70 percent coverage verdict. -/
def generate_mitigation_for (available_credit : ℚ) (customers : List Customer)
    (invoices : List Invoice) (c : Collision) : Collision :=
  let deficit := c.deficit_amount
  let scan := accelerateScan customers c.collision_date invoices
  let accelerate_potential := scan.1
  let sorted_targets := stableSortBy
    (fun b a => decide (a.amount * a.collection_probability ≤
                        b.amount * b.collection_probability)) scan.2
  let levers1 : List Lever :=
    if accelerate_potential > 0 then
      [{ lever := "accelerate_collections", priority := 1
         potential_amount := accelerate_potential
         implementation_time_days := 1, success_probability := 3/4
         target_customers := sorted_targets.take 5 }]
    else []
  let defer_potential :=
    ((c.bills.filter (fun b => strLower b.category ∉ nonDeferrable)).map
      BillItem.amount).sum
  let levers2 : List Lever :=
    if defer_potential > 0 then
      [{ lever := "defer_payables", priority := 2
         potential_amount := defer_potential
         implementation_time_days := 1, success_probability := 6/10 }]
    else []
  let levers3 : List Lever :=
    if available_credit > deficit * (1/2) then
      [{ lever := "draw_credit_line", priority := 3
         potential_amount := available_credit
         implementation_time_days := 0, success_probability := 95/100 }]
    else []
  let joined := String.intercalate " " (c.expense_categories.map strLower)
  let loan_emi_deferrable := c.mandatory_expenses * (3/10)
  let levers4 : List Lever :=
    if strSub "loan" joined && decide (loan_emi_deferrable > 0) then
      [{ lever := "restructure_loan", priority := 4
         potential_amount := loan_emi_deferrable
         implementation_time_days := 3, success_probability := 1/2 }]
    else []
  let mitigation_levers := levers1 ++ levers2 ++ levers3 ++ levers4
  let total_potential :=
    (mitigation_levers.map
      (fun l => l.potential_amount * l.success_probability)).sum
  { c with
      mitigation_levers := mitigation_levers
      total_mitigation_potential := total_potential
      can_be_mitigated := decide (total_potential ≥ deficit * (7/10)) }

/-!
Output preparation (prepare_output, lines 586-670) and the orchestrating
pipeline state.
-/

/-- The current_position block of the success report. -/
structure CurrentPosition where
  current_balance : ℚ
  minimum_balance : ℚ
  balance_gap : ℚ
  available_credit : ℚ
  credit_utilization_pct : ℚ
deriving Repr, DecidableEq, Inhabited

/-- The emergency_action_plan block (lines 611-636), flattened to its
numeric content: the three fixed actions carry these dates and amounts. -/
structure EmergencyPlan where
  action_date : ℤ
  contact_deadline : ℤ
  expected_recovery : ℚ
  credit_deadline : ℤ
  credit_amount : ℚ
  deferral_deadline : ℤ
  expected_deferral : ℚ
deriving Repr, DecidableEq, Inhabited

/-- Build the emergency plan from a collision dict (lines 601-636). -/
def mkEmergencyPlan (available_credit : ℚ) (fc : Collision) : EmergencyPlan :=
  let expected_recovery :=
    (fc.mitigation_levers.map
      (fun l => (l.target_customers.map CustomerTarget.amount).sum)).sum
  let expected_deferral :=
    ((fc.mitigation_levers.filter (fun l => l.lever == "defer_payables")).map
      Lever.potential_amount).sum
  { action_date := fc.collision_date - 2
    contact_deadline := fc.collision_date - 1
    expected_recovery := expected_recovery
    credit_deadline := fc.collision_date
    credit_amount := available_credit
    deferral_deadline := fc.collision_date - 1
    expected_deferral := expected_deferral }

/-- The success report assembled by prepare_output (lines 638-666). -/
structure Report where
  org_id : ℤ
  current_position : CurrentPosition
  total_collisions_detected : ℕ
  critical_collisions : ℕ
  high_collisions : ℕ
  first_collision : Option Collision
  collisions_91d : List Collision
  mandatory_total : ℚ
  expense_dates : List ℤ
  emergency_action_plan : Option EmergencyPlan
  immediate_action : String
deriving Repr, DecidableEq, Inhabited

/-- The agent's final output: either the error object or the report. -/
inductive AgentOutput where
  | error (message : String)
  | success (report : Report)
deriving Repr, DecidableEq

/-- The shared pipeline state dict. Absent Python keys are modelled by the
same defaults state.get falls back to. -/
structure AgentState where
  org_id : ℤ := 0
  error : Option String := none
  current_step : String := "initialized"
  opening_balance : ℚ := 0
  current_balance : ℚ := 0
  minimum_balance : ℚ := 0
  balance_gap : ℚ := 0
  recent_inflows : ℚ := 0
  recent_outflows : ℚ := 0
  forecast : List ForecastItem := []
  mandatory_expenses : List (ℤ × Bucket) := []
  total_mandatory_91d : ℚ := 0
  credit_line_limit : ℚ := 0
  credit_line_utilized : ℚ := 0
  available_credit : ℚ := 0
  credit_utilization_pct : ℚ := 0
  collisions : List Collision := []
  collision_count : ℕ := 0
  first_collision : Option Collision := none
  output : Option AgentOutput := none
deriving Repr, DecidableEq

/-- An organization summary response. -/
structure OrgSummary where
  opening_balance : ℚ
  minimum_balance_required : ℚ
  credit_line_limit : ℚ
  credit_line_utilized : ℚ
deriving Repr, DecidableEq, Inhabited

/-- A payment record as read by get_current_balance (amount via _to_float,
type string lowercased in the stage). -/
structure Payment where
  amount : ℚ
  ptype : String
deriving Repr, DecidableEq, Inhabited

/-- The external world for one run: today's date and the outcome of each
fetch a stage performs (Except.error models the exception branch of the
surrounding try). -/
structure Env where
  today : ℤ
  orgSummary : Except String OrgSummary
  payments : Except String (List Payment)
  forecastResult : Except String (List ForecastItem)
  billsResult : Except String (List RawBill)
  orgSummary2 : Except String OrgSummary
  customersResult : Except String (List Customer)
  invoicesResult : Except String (List Invoice)

/-- Stage 1, get_current_balance (lines 99-156): opening balance plus
inflows minus outflows; unrecognized payment types default to inflow. -/
def get_current_balance (env : Env) (s : AgentState) : AgentState :=
  match env.orgSummary with
  | .error e => { s with error := some e }
  | .ok org =>
      match env.payments with
      | .error e => { s with error := some e }
      | .ok payments =>
          let inflows :=
            ((payments.filter (fun p => strLower p.ptype ≠ "outflow")).map
              Payment.amount).sum
          let outflows :=
            ((payments.filter (fun p => strLower p.ptype = "outflow")).map
              Payment.amount).sum
          let current := org.opening_balance + inflows - outflows
          { s with
              opening_balance := org.opening_balance
              current_balance := current
              minimum_balance := org.minimum_balance_required
              balance_gap := current - org.minimum_balance_required
              recent_inflows := inflows
              recent_outflows := outflows
              current_step := "balance_fetched" }

/-- Stage 2, get_forecast (lines 158-187): a forecast-agent failure is
fatal (sets the error sentinel). -/
def get_forecast (env : Env) (s : AgentState) : AgentState :=
  if s.error.isSome then s
  else
    match env.forecastResult with
    | .error e => { s with error := some e }
    | .ok data => { s with forecast := data, current_step := "forecast_retrieved" }

/-- Stage 3, get_mandatory_expenses (lines 189-264): a bills-fetch failure
degrades to an empty bucket map instead of erroring. -/
def get_mandatory_expenses_stage (env : Env) (s : AgentState) : AgentState :=
  if s.error.isSome then s
  else
    match env.billsResult with
    | .error _ => { s with mandatory_expenses := [] }
    | .ok bills =>
        let m := get_mandatory_expenses bills
        { s with
            mandatory_expenses := m
            total_mandatory_91d := totalMandatory m
            current_step := "mandatory_expenses_retrieved" }

/-- Stage 4, get_credit_limits (lines 266-297): a summary-fetch failure
degrades to zero credit instead of erroring. -/
def get_credit_limits (env : Env) (s : AgentState) : AgentState :=
  if s.error.isSome then s
  else
    match env.orgSummary2 with
    | .error _ => { s with credit_line_limit := 0, available_credit := 0 }
    | .ok org =>
        let available := org.credit_line_limit - org.credit_line_utilized
        { s with
            credit_line_limit := org.credit_line_limit
            credit_line_utilized := org.credit_line_utilized
            available_credit := available
            credit_utilization_pct :=
              if org.credit_line_limit > 0 then
                org.credit_line_utilized / org.credit_line_limit * 100
              else 0
            current_step := "credit_limits_retrieved" }

/-- Stage 5, detect_collisions (lines 299-352). The first_collision key
aliases the first collision dict of the detection-order list. -/
def detect_collisions_stage (env : Env) (s : AgentState) : AgentState :=
  if s.error.isSome then s
  else
    let cols := detect_collisions env.today s.minimum_balance
      s.available_credit s.mandatory_expenses s.forecast
    { s with
        collisions := cols
        collision_count := cols.length
        first_collision := cols.head?
        current_step := "collisions_detected" }

/-- Stage 6, analyze_severity (lines 354-396). Because first_collision
aliases a dict mutated in place by this pass, the embedding applies the
same per-collision update to it. -/
def analyze_severity_stage (s : AgentState) : AgentState :=
  if s.error.isSome then s
  else
    { s with
        collisions := analyze_severity s.collisions
        first_collision := s.first_collision.map addSeverity
        current_step := "severity_analyzed" }

/-- The customer and invoice data generate_mitigation works with: any
fetch failure degrades both lists to empty (lines 408-440). -/
def mitigFetched (env : Env) : List Customer × List Invoice :=
  match env.customersResult, env.invoicesResult with
  | .ok cs, .ok is => (cs, is)
  | _, _ => (([] : List Customer), ([] : List Invoice))

/-- Stage 7, generate_mitigation (lines 398-584). A customers/invoices
fetch failure degrades both lists to empty. first_collision again receives
the same in-place update as the list element it aliases. -/
def generate_mitigation_stage (env : Env) (s : AgentState) : AgentState :=
  if s.error.isSome then s
  else
    let upd := generate_mitigation_for s.available_credit
      (mitigFetched env).1 (mitigFetched env).2
    { s with
        collisions := s.collisions.map upd
        first_collision := s.first_collision.map upd
        current_step := "mitigation_generated" }

/-- Stage 8, prepare_output (lines 586-670). -/
def prepare_output (s : AgentState) : AgentState :=
  match s.error with
  | some msg => { s with output := some (.error msg) }
  | none =>
      let collisions := s.collisions
      let emergency :=
        match collisions.head? with
        | none => none
        | some fc =>
            if fc.severity ∈ ["critical", "high"] then
              some (mkEmergencyPlan s.available_credit fc)
            else none
      let report : Report :=
        { org_id := s.org_id
          current_position :=
            { current_balance := s.current_balance
              minimum_balance := s.minimum_balance
              balance_gap := s.balance_gap
              available_credit := s.available_credit
              credit_utilization_pct := s.credit_utilization_pct }
          total_collisions_detected := s.collision_count
          critical_collisions :=
            (collisions.filter (fun c => c.severity == "critical")).length
          high_collisions :=
            (collisions.filter (fun c => c.severity == "high")).length
          first_collision := s.first_collision
          collisions_91d := collisions
          mandatory_total := s.total_mandatory_91d
          expense_dates :=
            stableSortBy (fun b a => decide (b ≤ a))
              (s.mandatory_expenses.map Prod.fst)
          emergency_action_plan := emergency
          immediate_action :=
            if s.collision_count > 0 then "URGENT" else "MONITOR" }
      { s with output := some (.success report), current_step := "complete" }

/-- The first four (fetch) stages of the pipeline in graph order. -/
def fetchStages (env : Env) (org_id : ℤ) : AgentState :=
  get_credit_limits env
    (get_mandatory_expenses_stage env
      (get_forecast env
        (get_current_balance env { org_id := org_id })))

/-- The full eight-stage pipeline in graph order (create_graph,
lines 72-97). -/
def runCollisionPipeline (env : Env) (org_id : ℤ) : AgentState :=
  prepare_output
    (generate_mitigation_stage env
      (analyze_severity_stage
        (detect_collisions_stage env (fetchStages env org_id))))

/-!
Forecast Agent (Forecast_Agent/agent.py): historical-data loading
(load_historical_data, lines 146-223) and the 91-day forecast loop
(generate_forecast, lines 430-536).
-/

/-- The sign tag consulted when the payment type is neither inflow nor
outflow (lines 180-186): plus-like values, minus-like values, anything
else (including an absent key). -/
inductive SignTag where
  | splus
  | sminus
  | sother
deriving Repr, DecidableEq, Inhabited

/-- A raw payment record for the loader. parsed_date is none when the date
field is missing or fails every parser (both cases hit continue); amount
is none when the amount fails both float conversions (the code then uses
0.0). -/
structure RawPayment where
  parsed_date : Option ℤ
  amount : Option ℚ
  ptype : String
  sign : SignTag
deriving Repr, DecidableEq, Inhabited

/-- The signed contribution of one payment (lines 165-186): inflow adds,
outflow subtracts, otherwise the sign tag decides with default add. An
unparsable amount contributes 0.0. -/
def paySigned (p : RawPayment) : ℚ :=
  let amt := p.amount.getD 0
  if strLower p.ptype = "inflow" then amt
  else if strLower p.ptype = "outflow" then -amt
  else
    match p.sign with
    | .splus => amt
    | .sminus => -amt
    | .sother => amt

/-- defaultdict(float) update: date_map at d += v, creating the key with
value v when absent, preserving insertion order. -/
def dmAdd (m : List (ℤ × ℚ)) (d : ℤ) (v : ℚ) : List (ℤ × ℚ) :=
  match m with
  | [] => [(d, v)]
  | (k, x) :: rest => if k = d then (k, x + v) :: rest else (k, x) :: dmAdd rest d v

/-- One iteration of the aggregation loop of load_historical_data:
records whose date is missing or unparsable are skipped (continue); every
other record updates its day's entry. -/
def loadStep (m : List (ℤ × ℚ)) (p : RawPayment) : List (ℤ × ℚ) :=
  match p.parsed_date with
  | none => m
  | some d => dmAdd m d (paySigned p)

/-- The date_map built by the aggregation loop of load_historical_data
(an unparsable amount adds 0.0 but still touches its day's key). -/
def buildDateMap (payments : List RawPayment) : List (ℤ × ℚ) :=
  payments.foldl loadStep []

/-- sorted(date_map.keys()) of the loader (line 188). -/
def loadSortedDates (payments : List RawPayment) : List ℤ :=
  stableSortBy (fun b a => decide (b ≤ a)) ((buildDateMap payments).map Prod.fst)

/-- record_count = number of distinct days with data (line 189). -/
def loadRecordCount (payments : List RawPayment) : ℕ :=
  (loadSortedDates payments).length

/-- Value of a date_map at a key, with the defaultdict float default 0. -/
def dmGet (m : List (ℤ × ℚ)) (d : ℤ) : ℚ :=
  match m with
  | [] => 0
  | (k, x) :: rest => if k = d then x else dmGet rest d

/-- The net change the loader reports for day d (net_changes entry;
0 when the day never appears, matching the defaultdict float default). -/
def loadNetChange (payments : List RawPayment) (d : ℤ) : ℚ :=
  dmGet (buildDateMap payments) d

/-- np.mean of a rational list (total—division by the length; callers in
the source guard the empty case). -/
def qmean (l : List ℚ) : ℚ := l.sum / (l.length : ℚ)

/-- The inputs of the forecast loop. The trained RandomForest is the
opaque function model applied to the 10-entry feature vector the loop
builds; cal is the calendar decomposition date -> (weekday, day-of-month,
month) whose output only feeds that opaque model; residualStd is the
validation residual standard deviation (or its fallback), constant across
the 91 iterations as in the source. -/
structure ForecastParams where
  model : List ℚ → ℚ
  cal : ℤ → ℤ × ℤ × ℤ
  lastDate : ℤ
  startBalance : ℚ
  netChanges : List ℚ
  residualStd : ℚ

/-- One forecast output entry. The acc_balance / acc_change fields are the
loop's local current_balance and predicted_change values before the
2-decimal rounding applied to the emitted fields. -/
structure ForecastEntry where
  date : ℤ
  predicted_balance : ℚ
  daily_change : ℚ
  confidence_95 : ℚ
  confidence_5 : ℚ
  acc_balance : ℚ
  acc_change : ℚ
deriving Repr, DecidableEq, Inhabited

/-- The feature vector built for one future day (lines 484-502): calendar
fields, month-start/end flags, lag-1/7/30 and rolling-7/30 terms over the
predicted changes so far, falling back to the historical mean. -/
def forecastFeatures (p : ForecastParams) (fdate : ℤ) (changes : List ℚ) :
    List ℚ :=
  match p.cal fdate with
  | (dow, dom, month) =>
      let m := qmean p.netChanges
      let lag1 := (changes.getLast?).getD m
      let lag7 := if changes.length ≥ 7 then changes.getD (changes.length - 7) 0 else m
      let lag30 := if changes.length ≥ 30 then changes.getD (changes.length - 30) 0 else m
      let rolling7 := if changes.isEmpty then m else qmean (changes.drop (changes.length - 7))
      let rolling30 := if changes.isEmpty then m else qmean (changes.drop (changes.length - 30))
      [(dow : ℚ), (dom : ℚ), (month : ℚ),
       if dom ≤ 5 then 1 else 0, if dom ≥ 25 then 1 else 0,
       lag1, lag7, lag30, rolling7, rolling30]

/-- The forecast loop (lines 481-528): n remaining iterations, i the
current day_offset, bal the running balance, changes the predicted daily
changes so far. -/
def forecastAux (p : ForecastParams) : ℕ → ℕ → ℚ → List ℚ → List ForecastEntry
  | 0, _, _, _ => []
  | n + 1, i, bal, changes =>
      let fdate := p.lastDate + (i : ℤ) + 1
      let ch := p.model (forecastFeatures p fdate changes)
      let bal2 := bal + ch
      { date := fdate
        predicted_balance := round2 bal2
        daily_change := round2 ch
        confidence_95 := round2 (bal2 + (196/100) * p.residualStd)
        confidence_5 := round2 (bal2 - (196/100) * p.residualStd)
        acc_balance := bal2
        acc_change := ch } :: forecastAux p n (i + 1) bal2 (changes ++ [ch])

/-- Embedding of generate_forecast: 91 iterations starting the day after
the last historical date, from the computed current balance. -/
def generate_forecast (p : ForecastParams) : List ForecastEntry :=
  forecastAux p 91 0 p.startBalance []

/-- Concrete forecast inputs used as a counterexample: a model that always
predicts a net change of 1/3 (a value, like generic regressor output, with
more than two decimal places). -/
def cexForecastParams : ForecastParams :=
  { model := fun _ => 1/3
    cal := fun _ => (0, 1, 1)
    lastDate := 0
    startBalance := 0
    netChanges := [1]
    residualStd := 0 }

/-- The severity formula exactly as the specification words it (claim C3);
compared below against the severity the code stores. -/
def specSeverityFormula (days_from_now : ℤ) (deficit : ℚ)
    (credit_can_cover : Bool) : ℚ :=
  (4/10) * max 0 (100 - 2 * (days_from_now : ℚ)) +
  (35/100) * min 100 (deficit / 1000000000 * 100) +
  (25/100) * (if credit_can_cover then 0 else 50)

/-- A concrete collision whose severity formula value 52.9305 has more
than two decimals. -/
def c3cex : Collision :=
  { collision_date := 0, predicted_balance := 0, mandatory_expenses := 0
    balance_after_mandatory := 0, deficit_amount := 12300000
    credit_can_cover := false, days_from_now := 0
    expense_categories := [], bills := [] }

/-- The concrete collision of the claim's clamp instance: due today,
deficit 2e9, credit cannot cover. -/
def c3clamp : Collision :=
  { collision_date := 0, predicted_balance := 0, mandatory_expenses := 0
    balance_after_mandatory := 0, deficit_amount := 2000000000
    credit_can_cover := false, days_from_now := 0
    expense_categories := [], bills := [] }

/-- A collision with deficit 1000 used for the coverage boundary. -/
def c5coll : Collision :=
  { collision_date := 5, predicted_balance := 0, mandatory_expenses := 0
    balance_after_mandatory := 0, deficit_amount := 1000
    credit_can_cover := false, days_from_now := 5
    expense_categories := [], bills := [] }

/-- An open invoice whose remaining amount 2800/3 makes the probability
weighted accelerate potential exactly 700 = 0.7 times the deficit. -/
def c5invoice : Invoice :=
  { status := "open", remaining := 2800/3, customer_id := 1, due_date := some 1 }

/-!
Claim C7: emi bills and the mandatory keyword list.
-/

/-- A bill whose category is exactly "emi". -/
def c7bill : RawBill := { category := "emi", due_date := some 20, amount := 1000 }

/-- A payment with a parseable date but an amount no float conversion
accepts. -/
def c8payment : RawPayment :=
  { parsed_date := some 0, amount := none, ptype := "inflow", sign := .sother }

/-- A state carrying the error sentinel. -/
def c9state : AgentState := { org_id := 1, error := some "boom" }

/-- A concrete environment for exercising the pipeline stages. -/
def c9env : Env :=
  { today := 0
    orgSummary := .error "x"
    payments := .ok []
    forecastResult := .ok []
    billsResult := .ok []
    orgSummary2 := .ok { opening_balance := 0, minimum_balance_required := 0,
                         credit_line_limit := 0, credit_line_utilized := 0 }
    customersResult := .ok []
    invoicesResult := .ok [] }

/-- A concrete environment producing two collisions: a near, small,
credit-coverable one on day 1 and a distant, huge, uncoverable one on
day 10. -/
def demoEnv : Env :=
  { today := 0
    orgSummary := .ok { opening_balance := 0, minimum_balance_required := 1000,
                        credit_line_limit := 5000, credit_line_utilized := 0 }
    payments := .ok []
    forecastResult := .ok [{ date := 1, predicted_balance := 0 },
                           { date := 10, predicted_balance := -1999999000 }]
    billsResult := .ok []
    orgSummary2 := .ok { opening_balance := 0, minimum_balance_required := 1000,
                         credit_line_limit := 5000, credit_line_utilized := 0 }
    customersResult := .ok []
    invoicesResult := .ok [] }

/-- The report the pipeline produces on demoEnv. -/
def demoReport : Report :=
  match (runCollisionPipeline demoEnv 1).output with
  | some (.success r) => r
  | _ => default

/-- The first_collision entry of the demo report. -/
def demoFirst : Collision := (demoReport.first_collision).getD default

/-- The head of the severity-sorted demo collision list. -/
def demoHead : Collision := (demoReport.collisions_91d.head?).getD default

theorem ratFloor_eq_floor (q : ℚ) : ratFloor q = ⌊q⌋ := by
  rw [Rat.floor_def]
  rfl

theorem ratFloor_le (q : ℚ) : (ratFloor q : ℚ) ≤ q := by
  rw [ratFloor_eq_floor]
  exact Int.floor_le q

theorem lt_ratFloor_add_one (q : ℚ) : q < (ratFloor q : ℚ) + 1 := by
  rw [ratFloor_eq_floor]
  exact_mod_cast Int.lt_floor_add_one q

theorem pyRound_le (q : ℚ) : (pyRound q : ℚ) ≤ q + 1 := by
  have h1 := ratFloor_le q
  have h2 := lt_ratFloor_add_one q
  unfold pyRound
  split_ifs <;> push_cast <;> linarith

theorem le_pyRound (q : ℚ) : q - 1 ≤ (pyRound q : ℚ) := by
  have h1 := ratFloor_le q
  have h2 := lt_ratFloor_add_one q
  unfold pyRound
  split_ifs <;> push_cast <;> linarith

theorem pyRound_nonneg {q : ℚ} (h : 0 ≤ q) : 0 ≤ pyRound q := by
  have hf : 0 ≤ ratFloor q := by
    rw [ratFloor_eq_floor]
    exact Int.floor_nonneg.mpr h
  unfold pyRound
  split_ifs <;> omega

theorem round2_bounds (q : ℚ) : q - 1/100 ≤ round2 q ∧ round2 q ≤ q + 1/100 := by
  unfold round2
  constructor
  · have := le_pyRound (q * 100)
    linarith
  · have := pyRound_le (q * 100)
    linarith

theorem round2_nonneg {q : ℚ} (h : 0 ≤ q) : 0 ≤ round2 q := by
  unfold round2
  have h0 : (0 : ℤ) ≤ pyRound (q * 100) := pyRound_nonneg (by linarith)
  have : (0 : ℚ) ≤ (pyRound (q * 100) : ℚ) := by exact_mod_cast h0
  linarith

theorem insertKeep_perm {α : Type} (keep : α → α → Bool) (a : α) :
    ∀ l : List α, (insertKeep keep a l).Perm (a :: l) := by
  intro l
  induction l with
  | nil => simp [insertKeep]
  | cons b rest ih =>
      simp only [insertKeep]
      split
      · exact (ih.cons b).trans (List.Perm.swap a b rest)
      · exact List.Perm.refl _

theorem stableSortBy_perm {α : Type} (keep : α → α → Bool) (l : List α) :
    (stableSortBy keep l).Perm l := by
  suffices h : ∀ (l acc : List α),
      (l.foldl (fun acc a => insertKeep keep a acc) acc).Perm (acc ++ l) by
    simpa using h l []
  intro l
  induction l with
  | nil => intro acc; simp
  | cons a rest ih =>
      intro acc
      have h1 := ih (insertKeep keep a acc)
      have h2 : (insertKeep keep a acc ++ rest).Perm (acc ++ a :: rest) :=
        ((insertKeep_perm keep a acc).append_right rest).trans List.perm_middle.symm
      simpa using h1.trans h2

theorem insertKeep_pairwise {α : Type} {R : α → α → Prop} {keep : α → α → Bool}
    (hkeepT : ∀ b a, keep b a = true → R b a)
    (hkeepF : ∀ b a, keep b a = false → R a b)
    (htrans : ∀ a b c, R a b → R b c → R a c)
    (a : α) : ∀ l : List α, l.Pairwise R → (insertKeep keep a l).Pairwise R := by
  intro l
  induction l with
  | nil => intro _; simp [insertKeep, List.pairwise_cons]
  | cons b rest ih =>
      intro hp
      rw [List.pairwise_cons] at hp
      simp only [insertKeep]
      split
      · rename_i hkeep
        rw [List.pairwise_cons]
        refine ⟨?_, ih hp.2⟩
        intro x hx
        have hx2 := (insertKeep_perm keep a rest).mem_iff.mp hx
        rcases List.mem_cons.mp hx2 with hx3 | hx3
        · rw [hx3]; exact hkeepT b a hkeep
        · exact hp.1 x hx3
      · rename_i hkeep
        rw [List.pairwise_cons]
        have hbf : keep b a = false := by simpa using hkeep
        have hab : R a b := hkeepF b a hbf
        refine ⟨?_, List.pairwise_cons.mpr hp⟩
        intro x hx
        rcases List.mem_cons.mp hx with hx2 | hx2
        · rw [hx2]; exact hab
        · exact htrans a b x hab (hp.1 x hx2)

theorem stableSortBy_pairwise {α : Type} {R : α → α → Prop} {keep : α → α → Bool}
    (hkeepT : ∀ b a, keep b a = true → R b a)
    (hkeepF : ∀ b a, keep b a = false → R a b)
    (htrans : ∀ a b c, R a b → R b c → R a c)
    (l : List α) : (stableSortBy keep l).Pairwise R := by
  suffices h : ∀ (l acc : List α), acc.Pairwise R →
      (l.foldl (fun acc a => insertKeep keep a acc) acc).Pairwise R by
    exact h l [] List.Pairwise.nil
  intro l
  induction l with
  | nil => intro acc h; simpa using h
  | cons a rest ih =>
      intro acc h
      exact ih _ (insertKeep_pairwise hkeepT hkeepF htrans a acc h)

/-!
Facts about the forecast loop.
-/

theorem forecastAux_length (p : ForecastParams) :
    ∀ (n i : ℕ) (b : ℚ) (c : List ℚ), (forecastAux p n i b c).length = n := by
  intro n
  induction n with
  | zero => intro i b c; rfl
  | succ n ih =>
      intro i b c
      simp only [forecastAux, List.length_cons]
      rw [ih]

theorem forecastAux_getD_date (p : ForecastParams) :
    ∀ (n i : ℕ) (b : ℚ) (c : List ℚ) (j : ℕ), j < n →
      ((forecastAux p n i b c).getD j default).date = p.lastDate + (i : ℤ) + (j : ℤ) + 1 := by
  intro n
  induction n with
  | zero => intro i b c j h; omega
  | succ n ih =>
      intro i b c j h
      match j with
      | 0 => simp [forecastAux]
      | j + 1 =>
          have hj : j < n := by omega
          simp only [forecastAux, List.getD_cons_succ]
          rw [ih (i + 1) _ _ j hj]
          push_cast
          ring

theorem forecastAux_round (p : ForecastParams) :
    ∀ (n i : ℕ) (b : ℚ) (c : List ℚ), ∀ e ∈ forecastAux p n i b c,
      e.predicted_balance = round2 e.acc_balance ∧
      e.daily_change = round2 e.acc_change := by
  intro n
  induction n with
  | zero => intro i b c e he; simp [forecastAux] at he
  | succ n ih =>
      intro i b c e he
      simp only [forecastAux, List.mem_cons] at he
      rcases he with he | he
      · subst he; exact ⟨rfl, rfl⟩
      · exact ih _ _ _ e he

theorem forecastAux_head_balance (p : ForecastParams) :
    ∀ (n i : ℕ) (b : ℚ) (c : List ℚ), 0 < n →
      ((forecastAux p n i b c).getD 0 default).acc_balance
        = b + ((forecastAux p n i b c).getD 0 default).acc_change := by
  intro n i b c h
  match n, h with
  | n + 1, _ => simp [forecastAux]

theorem forecastAux_chain (p : ForecastParams) :
    ∀ (n i : ℕ) (b : ℚ) (c : List ℚ) (j : ℕ), j + 1 < n →
      ((forecastAux p n i b c).getD (j + 1) default).acc_balance
        = ((forecastAux p n i b c).getD j default).acc_balance
          + ((forecastAux p n i b c).getD (j + 1) default).acc_change := by
  intro n
  induction n with
  | zero => intro i b c j h; omega
  | succ n ih =>
      intro i b c j h
      match j with
      | 0 =>
          simp only [forecastAux, List.getD_cons_succ, List.getD_cons_zero]
          exact forecastAux_head_balance p n (i + 1) _ _ (by omega)
      | j + 1 =>
          simp only [forecastAux, List.getD_cons_succ]
          exact ih (i + 1) _ _ j (by omega)

unseal Rat.mul Rat.inv Rat.add Rat.sub in
/-- C1 counterexample: the emitted predicted_balance is the running
balance rounded to two decimals (round(float(current_balance), 2), agent
line 523), so it differs from the exact running balance whenever the
model's prediction has more than two decimal places: with a constant
predicted change of 1/3 the first entry reports 0.33, not 1/3. -/
theorem C1_counterexample :
    ((generate_forecast cexForecastParams).getD 0 default).predicted_balance = 33/100 ∧
    ((generate_forecast cexForecastParams).getD 0 default).acc_balance = 1/3 ∧
    ((generate_forecast cexForecastParams).getD 0 default).predicted_balance ≠
      ((generate_forecast cexForecastParams).getD 0 default).acc_balance := by
  refine ⟨by decide, by decide, by decide⟩

/-- C1 (amended): for every input, the generated forecast has exactly 91
entries, their dates are consecutive calendar days starting the day after
the last historical date, and each entry's predicted_balance is the
running balance after adding that day's predicted net change, rounded to
two decimal places (the accumulator itself advances unrounded). -/
theorem C1_forecast_shape (p : ForecastParams) :
    (generate_forecast p).length = 91 ∧
    (∀ j : ℕ, j < 91 →
      ((generate_forecast p).getD j default).date = p.lastDate + (j : ℤ) + 1) ∧
    (∀ e ∈ generate_forecast p, e.predicted_balance = round2 e.acc_balance) ∧
    ((generate_forecast p).getD 0 default).acc_balance
      = p.startBalance + ((generate_forecast p).getD 0 default).acc_change ∧
    (∀ j : ℕ, j + 1 < 91 →
      ((generate_forecast p).getD (j + 1) default).acc_balance
        = ((generate_forecast p).getD j default).acc_balance
          + ((generate_forecast p).getD (j + 1) default).acc_change) := by
  refine ⟨forecastAux_length p 91 0 p.startBalance [], ?_, ?_, ?_, ?_⟩
  · intro j hj
    have h := forecastAux_getD_date p 91 0 p.startBalance [] j hj
    simpa [generate_forecast] using h
  · intro e he
    exact (forecastAux_round p 91 0 p.startBalance [] e he).1
  · exact forecastAux_head_balance p 91 0 p.startBalance [] (by omega)
  · intro j hj
    exact forecastAux_chain p 91 0 p.startBalance [] j hj

/-- Witness for C1_forecast_shape at the concrete parameters. -/
theorem C1_forecast_shape_witness :
    (generate_forecast cexForecastParams).length = 91 ∧
    ((generate_forecast cexForecastParams).getD 0 default).date = 1 := by
  refine ⟨(C1_forecast_shape cexForecastParams).1, ?_⟩
  have h := (C1_forecast_shape cexForecastParams).2.1 0 (by omega)
  simpa using h

/-!
Facts about detect_collisions and analyze_severity.
-/

theorem mkCollision_eq_some {today : ℤ} {minB credit : ℚ}
    {mand : List (ℤ × Bucket)} {item : ForecastItem} {c : Collision} :
    mkCollision today minB credit mand item = some c ↔
      item.predicted_balance - (bucketFor mand item.date).total < minB ∧
      c = { collision_date := item.date
            predicted_balance := item.predicted_balance
            mandatory_expenses := (bucketFor mand item.date).total
            balance_after_mandatory :=
              item.predicted_balance - (bucketFor mand item.date).total
            deficit_amount :=
              |minB - (item.predicted_balance - (bucketFor mand item.date).total)|
            credit_can_cover :=
              decide (minB - (item.predicted_balance -
                (bucketFor mand item.date).total) ≤ credit)
            days_from_now := item.date - today
            expense_categories := (bucketFor mand item.date).categories
            bills := (bucketFor mand item.date).items } := by
  simp only [mkCollision]
  split_ifs with h
  · simp [h, eq_comm]
  · simp [h]

theorem mem_detect_collisions {today : ℤ} {minB credit : ℚ}
    {mand : List (ℤ × Bucket)} {forecast : List ForecastItem} {c : Collision} :
    c ∈ detect_collisions today minB credit mand forecast ↔
      ∃ item ∈ forecast, mkCollision today minB credit mand item = some c := by
  unfold detect_collisions
  rw [List.mem_filterMap]

theorem detect_collisions_fields {today : ℤ} {minB credit : ℚ}
    {mand : List (ℤ × Bucket)} {forecast : List ForecastItem} {c : Collision}
    (hc : c ∈ detect_collisions today minB credit mand forecast) :
    c.balance_after_mandatory
      = c.predicted_balance - (bucketFor mand c.collision_date).total ∧
    c.balance_after_mandatory < minB ∧
    c.deficit_amount = minB - c.balance_after_mandatory ∧
    0 ≤ c.deficit_amount ∧
    (c.credit_can_cover = true ↔ c.deficit_amount ≤ credit) := by
  obtain ⟨item, _, hmk⟩ := mem_detect_collisions.mp hc
  obtain ⟨hlt, hcdef⟩ := mkCollision_eq_some.mp hmk
  subst hcdef
  have habs : |minB - (item.predicted_balance - (bucketFor mand item.date).total)|
      = minB - (item.predicted_balance - (bucketFor mand item.date).total) :=
    abs_of_pos (by linarith)
  refine ⟨rfl, hlt, habs, abs_nonneg _, ?_⟩
  show decide (minB - (item.predicted_balance - (bucketFor mand item.date).total)
      ≤ credit) = true ↔
    |minB - (item.predicted_balance - (bucketFor mand item.date).total)| ≤ credit
  rw [habs]
  exact decide_eq_true_iff

/-- C2: a collision is recorded for a forecast day exactly when
predicted_balance minus that date's mandatory total is strictly below the
minimum-balance floor, and every recorded collision carries
deficit_amount = minimum_balance - balance_after_mandatory ≥ 0 together
with credit_can_cover ↔ deficit_amount ≤ available_credit. -/
theorem C2_collision_characterization (today : ℤ) (minB credit : ℚ)
    (mand : List (ℤ × Bucket)) (forecast : List ForecastItem) :
    (∀ c ∈ detect_collisions today minB credit mand forecast,
        c.balance_after_mandatory
          = c.predicted_balance - (bucketFor mand c.collision_date).total ∧
        c.balance_after_mandatory < minB ∧
        c.deficit_amount = minB - c.balance_after_mandatory ∧
        0 ≤ c.deficit_amount ∧
        (c.credit_can_cover = true ↔ c.deficit_amount ≤ credit)) ∧
    (∀ item ∈ forecast,
        item.predicted_balance - (bucketFor mand item.date).total < minB →
          ∃ c ∈ detect_collisions today minB credit mand forecast,
            c.collision_date = item.date ∧
            c.predicted_balance = item.predicted_balance) ∧
    (∀ item ∈ forecast,
        ¬ item.predicted_balance - (bucketFor mand item.date).total < minB →
          mkCollision today minB credit mand item = none) := by
  refine ⟨fun c hc => detect_collisions_fields hc, ?_, ?_⟩
  · intro item hitem hlt
    refine ⟨_, mem_detect_collisions.mpr ⟨item, hitem, mkCollision_eq_some.mpr ⟨hlt, rfl⟩⟩, rfl, rfl⟩
  · intro item _ hge
    unfold mkCollision
    simp [hge]

unseal Rat.mul Rat.inv Rat.add Rat.sub in
/-- Witness for C2_collision_characterization: a forecast day with balance
0 against floor 1000 and credit 500 produces a collision with deficit 1000
that credit cannot cover. -/
theorem C2_collision_characterization_witness :
    ((detect_collisions 0 1000 500 [] [{ date := 5, predicted_balance := 0 }]).getD
        0 default).deficit_amount = 1000 ∧
    0 ≤ ((detect_collisions 0 1000 500 [] [{ date := 5, predicted_balance := 0 }]).getD
        0 default).deficit_amount ∧
    ((detect_collisions 0 1000 500 [] [{ date := 5, predicted_balance := 0 }]).getD
        0 default).credit_can_cover = false := by
  have hmem : ((detect_collisions 0 1000 500 [] [{ date := 5, predicted_balance := 0 }]).getD
      0 default) ∈ detect_collisions 0 1000 500 [] [{ date := 5, predicted_balance := 0 }] := by
    decide
  have h := (C2_collision_characterization 0 1000 500 []
    [{ date := 5, predicted_balance := 0 }]).1 _ hmem
  refine ⟨by decide, h.2.2.2.1, by decide⟩

theorem severityRaw_eq_spec (c : Collision) :
    severityRaw c = specSeverityFormula c.days_from_now c.deficit_amount
      c.credit_can_cover := by
  unfold severityRaw specSeverityFormula
  have hmax : max (0 : ℚ) (100 - (c.days_from_now : ℚ) * 2)
      = max 0 (100 - 2 * (c.days_from_now : ℚ)) := by ring_nf
  rw [hmax]
  ring

theorem mem_analyze_severity {cs : List Collision} {c : Collision}
    (hc : c ∈ analyze_severity cs) :
    ∃ c0 ∈ cs, c = addSeverity c0 := by
  unfold analyze_severity at hc
  have h1 := (stableSortBy_perm _ _).mem_iff.mp hc
  obtain ⟨c0, hc0, heq⟩ := List.mem_map.mp h1
  exact ⟨c0, hc0, heq.symm⟩

unseal Rat.mul Rat.inv Rat.add Rat.sub in
/-- C3 counterexample: the stored severity_score is the formula value
rounded to two decimals (round(severity_score, 2), agent line 386): for a
deficit of 1.23e7 due today without credit cover the formula gives
52.9305 but the collision's severity_score field is 52.93. -/
theorem C3_counterexample :
    (addSeverity c3cex).severity_score = 5293/100 ∧
    specSeverityFormula c3cex.days_from_now c3cex.deficit_amount
      c3cex.credit_can_cover = 529305/10000 ∧
    (addSeverity c3cex).severity_score ≠
      specSeverityFormula c3cex.days_from_now c3cex.deficit_amount
        c3cex.credit_can_cover := by
  refine ⟨by decide, by decide, by decide⟩

unseal Rat.mul Rat.inv Rat.add Rat.sub in
/-- C3 (amended): every collision that leaves analyze_severity carries a
severity_score equal to the spec's formula value rounded to two decimals,
and a label obtained by applying the thresholds (critical at 80 or more,
high at 60, medium at 40, else low) to the unrounded formula value; at the
claim's concrete instance (due today, deficit 2e9, no credit cover) the
score is exactly 87.5 with label critical. -/
theorem C3_severity_formula :
    (∀ cs : List Collision, ∀ c ∈ analyze_severity cs,
      ∃ c0 ∈ cs,
        c.severity_score = round2 (specSeverityFormula c0.days_from_now
          c0.deficit_amount c0.credit_can_cover) ∧
        c.severity = severityLabel (specSeverityFormula c0.days_from_now
          c0.deficit_amount c0.credit_can_cover)) ∧
    (addSeverity c3clamp).severity_score = 875/10 ∧
    (addSeverity c3clamp).severity = "critical" := by
  refine ⟨?_, ?_, ?_⟩
  · intro cs c hc
    obtain ⟨c0, hc0, heq⟩ := mem_analyze_severity hc
    refine ⟨c0, hc0, ?_, ?_⟩
    · rw [heq]
      show round2 (severityRaw c0) = _
      rw [severityRaw_eq_spec]
    · rw [heq]
      show severityLabel (severityRaw c0) = _
      rw [severityRaw_eq_spec]
  · show round2 (severityRaw c3clamp) = 875/10
    rw [severityRaw_eq_spec]
    decide
  · show severityLabel (severityRaw c3clamp) = "critical"
    rw [severityRaw_eq_spec]
    decide

unseal Rat.mul Rat.inv Rat.add Rat.sub in
/-- Witness for C3_severity_formula at the singleton collision list. -/
theorem C3_severity_formula_witness :
    ((analyze_severity [c3cex]).getD 0 default).severity_score
      = round2 (specSeverityFormula c3cex.days_from_now c3cex.deficit_amount
          c3cex.credit_can_cover) := by
  have hmem : (analyze_severity [c3cex]).getD 0 default ∈ analyze_severity [c3cex] := by
    decide
  obtain ⟨c0, hc0, hscore, _⟩ := C3_severity_formula.1 [c3cex] _ hmem
  have hc0eq : c0 = c3cex := List.mem_singleton.mp hc0
  rw [hscore, hc0eq]

/-!
Claim C5: mitigation coverage law.
-/

/-- C5: for every collision, total_mitigation_potential is the sum of
potential_amount times success_probability over the attached levers, and
can_be_mitigated holds exactly when that total reaches 70 percent of the
deficit, with equality counting as covered. -/
theorem C5_mitigation_coverage (credit : ℚ) (customers : List Customer)
    (invoices : List Invoice) (c : Collision) :
    (generate_mitigation_for credit customers invoices c).total_mitigation_potential
      = (((generate_mitigation_for credit customers invoices c).mitigation_levers).map
          (fun l => l.potential_amount * l.success_probability)).sum ∧
    ((generate_mitigation_for credit customers invoices c).can_be_mitigated = true ↔
      (generate_mitigation_for credit customers invoices c).total_mitigation_potential
        ≥ (7/10) * (generate_mitigation_for credit customers invoices c).deficit_amount) ∧
    ((generate_mitigation_for credit customers invoices c).total_mitigation_potential
        = (7/10) * (generate_mitigation_for credit customers invoices c).deficit_amount →
      (generate_mitigation_for credit customers invoices c).can_be_mitigated = true) := by
  refine ⟨rfl, ?_, ?_⟩
  · simp only [generate_mitigation_for]
    rw [decide_eq_true_iff]
    constructor
    · intro h
      linarith
    · intro h
      linarith
  · intro h
    simp only [generate_mitigation_for] at h ⊢
    rw [decide_eq_true_iff]
    linarith

unseal Rat.mul Rat.inv Rat.add Rat.sub in
/-- Witness for C5_mitigation_coverage at the exact 70 percent boundary:
the lever total is exactly 700 and can_be_mitigated comes out true. -/
theorem C5_mitigation_coverage_witness :
    (generate_mitigation_for 0 [] [c5invoice] c5coll).total_mitigation_potential
      = 700 ∧
    (generate_mitigation_for 0 [] [c5invoice] c5coll).can_be_mitigated = true := by
  refine ⟨by decide, (C5_mitigation_coverage 0 [] [c5invoice] c5coll).2.1.mpr (by decide)⟩

/-!
Claim C6: severity range.
-/

theorem severityRaw_nonneg (c : Collision) (hdef : 0 ≤ c.deficit_amount) :
    0 ≤ severityRaw c := by
  simp only [severityRaw]
  have h1 : (0 : ℚ) ≤ max 0 (100 - (c.days_from_now : ℚ) * 2) := le_max_left _ _
  have h2 : (0 : ℚ) ≤ min 100 (c.deficit_amount / 1000000000 * 100) :=
    le_min (by norm_num) (mul_nonneg (div_nonneg hdef (by norm_num)) (by norm_num))
  split_ifs <;> linarith

theorem severityRaw_le_clamp (c : Collision) (hdays : 0 ≤ c.days_from_now) :
    severityRaw c ≤ 875/10 := by
  simp only [severityRaw]
  have h0 : (0 : ℚ) ≤ (c.days_from_now : ℚ) := by exact_mod_cast hdays
  have h1 : max (0 : ℚ) (100 - (c.days_from_now : ℚ) * 2) ≤ 100 :=
    max_le (by norm_num) (by linarith)
  have h2 : min (100 : ℚ) (c.deficit_amount / 1000000000 * 100) ≤ 100 :=
    min_le_left _ _
  split_ifs <;> linarith

/-- C6 (amended): the severity_score of every collision produced by the
detection-severity pipeline is at least 0 unconditionally, including
collisions whose days_from_now is negative; and every such collision whose
own days_from_now is nonnegative has severity_score at most 100. With a
negative days_from_now the proximity term is unclamped above and the score
can exceed 100. -/
theorem C6_severity_range (today : ℤ) (minB credit : ℚ)
    (mand : List (ℤ × Bucket)) (forecast : List ForecastItem) :
    ∀ c ∈ analyze_severity (detect_collisions today minB credit mand forecast),
      0 ≤ c.severity_score ∧ (0 ≤ c.days_from_now → c.severity_score ≤ 100) := by
  intro c hc
  obtain ⟨c0, hc0, heq⟩ := mem_analyze_severity hc
  have hf := detect_collisions_fields hc0
  have hdef : 0 ≤ c0.deficit_amount := hf.2.2.2.1
  have hraw0 : 0 ≤ severityRaw c0 := severityRaw_nonneg c0 hdef
  rw [heq]
  constructor
  · show 0 ≤ round2 (severityRaw c0)
    exact round2_nonneg hraw0
  · intro hdays
    have hdays0 : 0 ≤ c0.days_from_now := hdays
    have hrawle : severityRaw c0 ≤ 875/10 := severityRaw_le_clamp c0 hdays0
    show round2 (severityRaw c0) ≤ 100
    have := (round2_bounds (severityRaw c0)).2
    linarith

unseal Rat.mul Rat.inv Rat.add Rat.sub in
/-- C6 counterexample: when the clock is ahead of the forecast date
(days_from_now = -30) the proximity term reaches 160 and the severity
score comes out 111.5, outside [0, 100]. -/
theorem C6_counterexample :
    ((analyze_severity (detect_collisions 30 1000 0 []
        [{ date := 0, predicted_balance := -1999999000 }])).getD 0
          default).days_from_now = -30 ∧
    ((analyze_severity (detect_collisions 30 1000 0 []
        [{ date := 0, predicted_balance := -1999999000 }])).getD 0
          default).severity_score = 223/2 ∧
    ¬ ((analyze_severity (detect_collisions 30 1000 0 []
        [{ date := 0, predicted_balance := -1999999000 }])).getD 0
          default).severity_score ≤ 100 := by
  refine ⟨by decide, by decide, by decide⟩

unseal Rat.mul Rat.inv Rat.add Rat.sub in
/-- Witness for C6_severity_range: the nonnegativity part at a collision
with days_from_now = -30, and both parts at a collision due today. -/
theorem C6_severity_range_witness :
    0 ≤ ((analyze_severity (detect_collisions 30 1000 0 []
        [{ date := 0, predicted_balance := -1999999000 }])).getD 0
          default).severity_score ∧
    0 ≤ ((analyze_severity (detect_collisions 0 1000 0 []
        [{ date := 0, predicted_balance := -1999999000 }])).getD 0
          default).severity_score ∧
    ((analyze_severity (detect_collisions 0 1000 0 []
        [{ date := 0, predicted_balance := -1999999000 }])).getD 0
          default).severity_score ≤ 100 := by
  have hmem1 : ((analyze_severity (detect_collisions 30 1000 0 []
      [{ date := 0, predicted_balance := -1999999000 }])).getD 0 default)
        ∈ analyze_severity (detect_collisions 30 1000 0 []
          [{ date := 0, predicted_balance := -1999999000 }]) := by decide
  have hmem2 : ((analyze_severity (detect_collisions 0 1000 0 []
      [{ date := 0, predicted_balance := -1999999000 }])).getD 0 default)
        ∈ analyze_severity (detect_collisions 0 1000 0 []
          [{ date := 0, predicted_balance := -1999999000 }]) := by decide
  have h1 := C6_severity_range 30 1000 0 []
    [{ date := 0, predicted_balance := -1999999000 }] _ hmem1
  have h2 := C6_severity_range 0 1000 0 []
    [{ date := 0, predicted_balance := -1999999000 }] _ hmem2
  exact ⟨h1.1, h2.1, h2.2 (by decide)⟩

unseal Rat.mul Rat.inv Rat.add Rat.sub in
/-- C7: evaluating get_mandatory_expenses at a bill with category "emi"
shows the code does not classify it as mandatory: the source keyword list
(agent.py line 222) contains the typo "emf" instead of "emi", so no keyword
matches and the bucket map stays empty. -/
theorem C7_emi_bill_not_mandatory :
    isMandatoryCategory (strLower c7bill.category) = false ∧
    get_mandatory_expenses [c7bill] = [] ∧
    (bucketFor (get_mandatory_expenses [c7bill]) 20).total = 0 := by
  refine ⟨by decide, by decide, by decide⟩

/-!
Claim C8: skipping behaviour of the historical-data loader.
-/

theorem paySigned_amount_none {p : RawPayment} (h : p.amount = none) :
    paySigned p = 0 := by
  simp only [paySigned, h, Option.getD_none]
  split_ifs
  · rfl
  · simp
  · cases p.sign <;> simp

theorem dmGet_dmAdd (m : List (ℤ × ℚ)) (d : ℤ) (v : ℚ) (e : ℤ) :
    dmGet (dmAdd m d v) e = dmGet m e + (if e = d then v else 0) := by
  induction m with
  | nil =>
      simp only [dmAdd, dmGet]
      by_cases he : e = d
      · subst he; simp
      · rw [if_neg (fun h2 => he h2.symm), if_neg he]
        simp
  | cons p rest ih =>
      obtain ⟨k, x⟩ := p
      simp only [dmAdd]
      by_cases hk : k = d
      · subst hk
        simp only [if_pos rfl, dmGet]
        by_cases he : k = e
        · rw [if_pos he, if_pos he, if_pos (he ▸ rfl)]
        · have he2 : ¬ e = k := fun h2 => he h2.symm
          rw [if_neg he, if_neg he, if_neg he2]
          simp
      · rw [if_neg hk]
        simp only [dmGet]
        by_cases he : k = e
        · rw [if_pos he, if_pos he]
          have he2 : ¬ e = d := fun h2 => hk (he.trans h2)
          rw [if_neg he2]
          simp
        · rw [if_neg he, if_neg he]
          exact ih

theorem loadStep_date_none {m : List (ℤ × ℚ)} {p : RawPayment}
    (h : p.parsed_date = none) : loadStep m p = m := by
  simp [loadStep, h]

theorem loadStep_date_some {m : List (ℤ × ℚ)} {p : RawPayment} {d : ℤ}
    (h : p.parsed_date = some d) : loadStep m p = dmAdd m d (paySigned p) := by
  simp [loadStep, h]

theorem foldl_loadStep_filter_dateOK :
    ∀ (ps : List RawPayment) (m : List (ℤ × ℚ)),
      ps.foldl loadStep m
        = (ps.filter (fun p => p.parsed_date.isSome)).foldl loadStep m := by
  intro ps
  induction ps with
  | nil => intro m; rfl
  | cons p rest ih =>
      intro m
      cases hd : p.parsed_date with
      | none =>
          rw [List.foldl_cons, loadStep_date_none hd]
          have hfilter : (p :: rest).filter (fun p => p.parsed_date.isSome)
              = rest.filter (fun p => p.parsed_date.isSome) := by
            simp [List.filter_cons, hd]
          rw [hfilter]
          exact ih m
      | some d =>
          have hfilter : (p :: rest).filter (fun p => p.parsed_date.isSome)
              = p :: rest.filter (fun p => p.parsed_date.isSome) := by
            simp [List.filter_cons, hd]
          rw [hfilter, List.foldl_cons, List.foldl_cons]
          exact ih _

theorem dmGet_foldl_filter_amountOK :
    ∀ (ps : List RawPayment) (m1 m2 : List (ℤ × ℚ)),
      (∀ e, dmGet m1 e = dmGet m2 e) →
      ∀ e, dmGet (ps.foldl loadStep m1) e
        = dmGet ((ps.filter (fun p => p.amount.isSome)).foldl loadStep m2) e := by
  intro ps
  induction ps with
  | nil => intro m1 m2 hpt e; simpa using hpt e
  | cons p rest ih =>
      intro m1 m2 hpt e
      by_cases ha : p.amount.isSome
      · have hfilter : (p :: rest).filter (fun p => p.amount.isSome)
            = p :: rest.filter (fun p => p.amount.isSome) := by
          simp [List.filter_cons, ha]
        rw [hfilter, List.foldl_cons, List.foldl_cons]
        cases hd : p.parsed_date with
        | none =>
            rw [loadStep_date_none hd, loadStep_date_none hd]
            exact ih m1 m2 hpt e
        | some d0 =>
            rw [loadStep_date_some hd, loadStep_date_some hd]
            refine ih _ _ (fun e2 => ?_) e
            rw [dmGet_dmAdd, dmGet_dmAdd, hpt e2]
      · have hfilter : (p :: rest).filter (fun p => p.amount.isSome)
            = rest.filter (fun p => p.amount.isSome) := by
          simp [List.filter_cons]
          exact Option.not_isSome_iff_eq_none.mp ha
        rw [hfilter, List.foldl_cons]
        cases hd : p.parsed_date with
        | none =>
            rw [loadStep_date_none hd]
            exact ih m1 m2 hpt e
        | some d0 =>
            rw [loadStep_date_some hd]
            refine ih _ _ (fun e2 => ?_) e
            have hz : paySigned p = 0 :=
              paySigned_amount_none (Option.not_isSome_iff_eq_none.mp ha)
            rw [dmGet_dmAdd, hz, hpt e2]
            simp

theorem mem_keys_dmAdd_self (m : List (ℤ × ℚ)) (d : ℤ) (v : ℚ) :
    d ∈ (dmAdd m d v).map Prod.fst := by
  induction m with
  | nil => simp [dmAdd]
  | cons p rest ih =>
      obtain ⟨k, x⟩ := p
      simp only [dmAdd]
      by_cases hk : k = d
      · rw [if_pos hk]
        simp [hk]
      · rw [if_neg hk]
        simp only [List.map_cons, List.mem_cons]
        exact Or.inr ih

theorem mem_keys_dmAdd_mono (m : List (ℤ × ℚ)) (d : ℤ) (v : ℚ) (e : ℤ)
    (he : e ∈ m.map Prod.fst) : e ∈ (dmAdd m d v).map Prod.fst := by
  induction m with
  | nil => simp at he
  | cons p rest ih =>
      obtain ⟨k, x⟩ := p
      simp only [dmAdd]
      simp only [List.map_cons, List.mem_cons] at he
      by_cases hk : k = d
      · rw [if_pos hk]
        simpa using he
      · rw [if_neg hk]
        simp only [List.map_cons, List.mem_cons]
        rcases he with he | he
        · exact Or.inl he
        · exact Or.inr (ih he)

theorem keys_foldl_loadStep_mono :
    ∀ (ps : List RawPayment) (m : List (ℤ × ℚ)) (e : ℤ),
      e ∈ m.map Prod.fst → e ∈ (ps.foldl loadStep m).map Prod.fst := by
  intro ps
  induction ps with
  | nil => intro m e he; simpa using he
  | cons p rest ih =>
      intro m e he
      rw [List.foldl_cons]
      refine ih _ e ?_
      cases hd : p.parsed_date with
      | none => rw [loadStep_date_none hd]; exact he
      | some d0 => rw [loadStep_date_some hd]; exact mem_keys_dmAdd_mono m d0 _ e he

theorem parsed_date_mem_buildDateMap :
    ∀ (ps : List RawPayment) (m : List (ℤ × ℚ)) (p : RawPayment), p ∈ ps →
      ∀ d : ℤ, p.parsed_date = some d →
        d ∈ (ps.foldl loadStep m).map Prod.fst := by
  intro ps
  induction ps with
  | nil => intro m p hp; simp at hp
  | cons q rest ih =>
      intro m p hp d hd
      rcases List.mem_cons.mp hp with hp | hp
      · subst hp
        rw [List.foldl_cons, loadStep_date_some hd]
        exact keys_foldl_loadStep_mono rest _ d (mem_keys_dmAdd_self m d _)
      · rw [List.foldl_cons]
        exact ih _ p hp d hd

/-- C8 (amended): records whose date is missing or unparsable are skipped
entirely (removing them changes nothing); records with a parseable date
but an unparsable amount contribute 0 to their day's net change (removing
them changes no day's total), but, contrary to the claim, their date still
registers among the distinct days, so they do count toward the
distinct-day record count. -/
theorem C8_loader_skip_policy :
    (∀ payments : List RawPayment,
        buildDateMap payments
          = buildDateMap (payments.filter (fun p => p.parsed_date.isSome))) ∧
    (∀ (payments : List RawPayment) (d : ℤ),
        loadNetChange payments d
          = loadNetChange (payments.filter (fun p => p.amount.isSome)) d) ∧
    (∀ (payments : List RawPayment) (p : RawPayment), p ∈ payments →
        ∀ d : ℤ, p.parsed_date = some d → d ∈ loadSortedDates payments) := by
  refine ⟨?_, ?_, ?_⟩
  · intro payments
    exact foldl_loadStep_filter_dateOK payments []
  · intro payments d
    exact dmGet_foldl_filter_amountOK payments [] [] (fun _ => rfl) d
  · intro payments p hp d hd
    have hkey : d ∈ (buildDateMap payments).map Prod.fst :=
      parsed_date_mem_buildDateMap payments [] p hp d hd
    unfold loadSortedDates
    exact (stableSortBy_perm _ _).mem_iff.mpr hkey

unseal Rat.mul Rat.inv Rat.add Rat.sub in
/-- C8 counterexample: a record whose amount fails to parse adds 0 to its
day's net change, yet the day still counts: the distinct-day record count
is 1, where full skipping (as the claim states) would leave 0. -/
theorem C8_counterexample :
    loadRecordCount [c8payment] = 1 ∧
    loadRecordCount (List.filter (fun p => p.amount.isSome) [c8payment]) = 0 ∧
    loadNetChange [c8payment] 0 = 0 := by
  refine ⟨by decide, by decide, by decide⟩

unseal Rat.mul Rat.inv Rat.add Rat.sub in
/-- Witness for C8_loader_skip_policy at concrete records. -/
theorem C8_loader_skip_policy_witness :
    (0 : ℤ) ∈ loadSortedDates [c8payment] ∧
    loadNetChange [c8payment] 0
      = loadNetChange (List.filter (fun p => p.amount.isSome) [c8payment]) 0 := by
  refine ⟨C8_loader_skip_policy.2.2 [c8payment] c8payment (by decide) 0 rfl, ?_⟩
  exact C8_loader_skip_policy.2.1 [c8payment] 0

/-!
Claim C9: error-sentinel propagation.
-/

/-- C9: once any stage has set the error sentinel, every subsequent stage
returns the state unmodified, and prepare_output emits the structured
error object carrying the sentinel message instead of the normal report. -/
theorem C9_error_passthrough (env : Env) (s : AgentState) (msg : String)
    (h : s.error = some msg) :
    get_forecast env s = s ∧
    get_mandatory_expenses_stage env s = s ∧
    get_credit_limits env s = s ∧
    detect_collisions_stage env s = s ∧
    analyze_severity_stage s = s ∧
    generate_mitigation_stage env s = s ∧
    (prepare_output s).output = some (.error msg) := by
  have hs : s.error.isSome = true := by rw [h]; rfl
  refine ⟨?_, ?_, ?_, ?_, ?_, ?_, ?_⟩ <;>
    simp [get_forecast, get_mandatory_expenses_stage, get_credit_limits,
      detect_collisions_stage, analyze_severity_stage,
      generate_mitigation_stage, prepare_output, hs, h]

/-- Witness for C9_error_passthrough at a concrete errored state. -/
theorem C9_error_passthrough_witness :
    get_forecast c9env c9state = c9state ∧
    (prepare_output c9state).output = some (.error "boom") := by
  have h := C9_error_passthrough c9env c9state "boom" rfl
  exact ⟨h.1, h.2.2.2.2.2.2⟩

/-!
Facts about the last four pipeline stages, shared by the ordering and
first-collision analyses.
-/

theorem generate_mitigation_for_score (credit : ℚ) (cs : List Customer)
    (invs : List Invoice) (c : Collision) :
    (generate_mitigation_for credit cs invs c).severity_score = c.severity_score :=
  rfl

theorem generate_mitigation_for_date (credit : ℚ) (cs : List Customer)
    (invs : List Invoice) (c : Collision) :
    (generate_mitigation_for credit cs invs c).collision_date = c.collision_date :=
  rfl

theorem generate_mitigation_for_severity (credit : ℚ) (cs : List Customer)
    (invs : List Invoice) (c : Collision) :
    (generate_mitigation_for credit cs invs c).severity = c.severity :=
  rfl

theorem addSeverity_date (c : Collision) :
    (addSeverity c).collision_date = c.collision_date :=
  rfl

theorem analyze_severity_sorted (cs : List Collision) :
    (analyze_severity cs).Pairwise
      (fun a b => b.severity_score ≤ a.severity_score) := by
  unfold analyze_severity
  apply stableSortBy_pairwise
  · intro b a hk
    exact of_decide_eq_true hk
  · intro b a hk
    have h2 : ¬ a.severity_score ≤ b.severity_score := of_decide_eq_false hk
    exact le_of_lt (lt_of_not_le h2)
  · intro a b c hab hbc
    exact le_trans hbc hab

theorem pairwise_score_map {l : List Collision} {f : Collision → Collision}
    (hf : ∀ c, (f c).severity_score = c.severity_score)
    (h : l.Pairwise (fun a b => b.severity_score ≤ a.severity_score)) :
    (l.map f).Pairwise (fun a b => b.severity_score ≤ a.severity_score) := by
  rw [List.pairwise_map]
  refine h.imp ?_
  intro a b hab
  rw [hf, hf]
  exact hab

theorem pipeline_tail_error (env : Env) (s4 : AgentState) (msg : String)
    (hs4 : s4.error = some msg) :
    (prepare_output (generate_mitigation_stage env (analyze_severity_stage
      (detect_collisions_stage env s4)))).output = some (.error msg) := by
  have hs : s4.error.isSome = true := by rw [hs4]; rfl
  simp [detect_collisions_stage, analyze_severity_stage,
    generate_mitigation_stage, prepare_output, hs, hs4]

theorem prepare_output_none (s : AgentState) (hs : s.error = none) :
    (prepare_output s).output = some (.success
      { org_id := s.org_id
        current_position :=
          { current_balance := s.current_balance
            minimum_balance := s.minimum_balance
            balance_gap := s.balance_gap
            available_credit := s.available_credit
            credit_utilization_pct := s.credit_utilization_pct }
        total_collisions_detected := s.collision_count
        critical_collisions :=
          (s.collisions.filter (fun c => c.severity == "critical")).length
        high_collisions :=
          (s.collisions.filter (fun c => c.severity == "high")).length
        first_collision := s.first_collision
        collisions_91d := s.collisions
        mandatory_total := s.total_mandatory_91d
        expense_dates :=
          stableSortBy (fun b a => decide (b ≤ a))
            (s.mandatory_expenses.map Prod.fst)
        emergency_action_plan :=
          match s.collisions.head? with
          | none => none
          | some fc =>
              if fc.severity ∈ (["critical", "high"] : List String) then
                some (mkEmergencyPlan s.available_credit fc)
              else none
        immediate_action :=
          if s.collision_count > 0 then "URGENT" else "MONITOR" }) := by
  unfold prepare_output
  rw [hs]

theorem pipeline_tail_success (env : Env) (s4 : AgentState)
    (hs4 : s4.error = none) :
    ∃ rep : Report,
      (prepare_output (generate_mitigation_stage env (analyze_severity_stage
        (detect_collisions_stage env s4)))).output = some (.success rep) ∧
      rep.collisions_91d
        = (analyze_severity (detect_collisions env.today s4.minimum_balance
            s4.available_credit s4.mandatory_expenses s4.forecast)).map
              (generate_mitigation_for s4.available_credit
                (mitigFetched env).1 (mitigFetched env).2) ∧
      rep.first_collision
        = ((detect_collisions env.today s4.minimum_balance s4.available_credit
            s4.mandatory_expenses s4.forecast).head?.map addSeverity).map
              (generate_mitigation_for s4.available_credit
                (mitigFetched env).1 (mitigFetched env).2) ∧
      rep.emergency_action_plan
        = (match rep.collisions_91d.head? with
           | none => none
           | some fc =>
               if fc.severity ∈ (["critical", "high"] : List String) then
                 some (mkEmergencyPlan s4.available_credit fc)
               else none) ∧
      rep.current_position.available_credit = s4.available_credit := by
  have hs : s4.error.isSome = false := by rw [hs4]; rfl
  have h5 : detect_collisions_stage env s4
      = { s4 with
          collisions := detect_collisions env.today s4.minimum_balance
            s4.available_credit s4.mandatory_expenses s4.forecast
          collision_count := (detect_collisions env.today s4.minimum_balance
            s4.available_credit s4.mandatory_expenses s4.forecast).length
          first_collision := (detect_collisions env.today s4.minimum_balance
            s4.available_credit s4.mandatory_expenses s4.forecast).head?
          current_step := "collisions_detected" } := by
    simp [detect_collisions_stage, hs]
  rw [h5]
  have h6 : analyze_severity_stage
      { s4 with
          collisions := detect_collisions env.today s4.minimum_balance
            s4.available_credit s4.mandatory_expenses s4.forecast
          collision_count := (detect_collisions env.today s4.minimum_balance
            s4.available_credit s4.mandatory_expenses s4.forecast).length
          first_collision := (detect_collisions env.today s4.minimum_balance
            s4.available_credit s4.mandatory_expenses s4.forecast).head?
          current_step := "collisions_detected" }
      = { s4 with
          collisions := analyze_severity (detect_collisions env.today
            s4.minimum_balance s4.available_credit s4.mandatory_expenses
            s4.forecast)
          collision_count := (detect_collisions env.today s4.minimum_balance
            s4.available_credit s4.mandatory_expenses s4.forecast).length
          first_collision := ((detect_collisions env.today s4.minimum_balance
            s4.available_credit s4.mandatory_expenses s4.forecast).head?).map
              addSeverity
          current_step := "severity_analyzed" } := by
    simp [analyze_severity_stage, hs]
  rw [h6]
  have h7 : generate_mitigation_stage env
      { s4 with
          collisions := analyze_severity (detect_collisions env.today
            s4.minimum_balance s4.available_credit s4.mandatory_expenses
            s4.forecast)
          collision_count := (detect_collisions env.today s4.minimum_balance
            s4.available_credit s4.mandatory_expenses s4.forecast).length
          first_collision := ((detect_collisions env.today s4.minimum_balance
            s4.available_credit s4.mandatory_expenses s4.forecast).head?).map
              addSeverity
          current_step := "severity_analyzed" }
      = { s4 with
          collisions := (analyze_severity (detect_collisions env.today
            s4.minimum_balance s4.available_credit s4.mandatory_expenses
            s4.forecast)).map (generate_mitigation_for s4.available_credit
              (mitigFetched env).1 (mitigFetched env).2)
          collision_count := (detect_collisions env.today s4.minimum_balance
            s4.available_credit s4.mandatory_expenses s4.forecast).length
          first_collision := (((detect_collisions env.today s4.minimum_balance
            s4.available_credit s4.mandatory_expenses s4.forecast).head?).map
              addSeverity).map (generate_mitigation_for s4.available_credit
                (mitigFetched env).1 (mitigFetched env).2)
          current_step := "mitigation_generated" } := by
    simp [generate_mitigation_stage, hs, Option.map_map]
  rw [h7]
  exact ⟨_, prepare_output_none _ hs4, rfl, rfl, rfl, rfl⟩

/-!
Claim C4: collision list ordering.
-/

/-- C4: in every successfully generated report, collisions_91d is sorted
descending by severity_score (no entry with a lower score precedes one
with a higher score), the mitigation pass having preserved the order
established by the severity sort. -/
theorem C4_collisions_sorted (env : Env) (org_id : ℤ) (r : Report)
    (h : (runCollisionPipeline env org_id).output = some (.success r)) :
    r.collisions_91d.Pairwise (fun a b => b.severity_score ≤ a.severity_score) := by
  rw [runCollisionPipeline] at h
  cases hs4 : (fetchStages env org_id).error with
  | some msg =>
      rw [pipeline_tail_error env _ msg hs4] at h
      simp at h
  | none =>
      obtain ⟨rep, hout, hcols, _, _, _⟩ :=
        pipeline_tail_success env (fetchStages env org_id) hs4
      rw [hout] at h
      have hr : r = rep := by
        simpa using h.symm
      rw [hr, hcols]
      exact pairwise_score_map (generate_mitigation_for_score _ _ _)
        (analyze_severity_sorted _)

unseal Rat.mul Rat.inv Rat.add Rat.sub in
/-- Witness for C4_collisions_sorted on the concrete environment. -/
theorem C4_collisions_sorted_witness :
    (runCollisionPipeline demoEnv 1).output = some (.success demoReport) ∧
    demoReport.collisions_91d.Pairwise
      (fun a b => b.severity_score ≤ a.severity_score) := by
  have h : (runCollisionPipeline demoEnv 1).output = some (.success demoReport) := by
    decide
  exact ⟨h, C4_collisions_sorted demoEnv 1 demoReport h⟩

/-!
Claim C10: first_collision versus the severity-sorted head.
-/

theorem detect_dates_sublist (today : ℤ) (minB credit : ℚ)
    (mand : List (ℤ × Bucket)) :
    ∀ forecast : List ForecastItem,
      ((detect_collisions today minB credit mand forecast).map
        Collision.collision_date).Sublist (forecast.map ForecastItem.date) := by
  intro forecast
  induction forecast with
  | nil => simp [detect_collisions]
  | cons item rest ih =>
      cases hmk : mkCollision today minB credit mand item with
      | none =>
          simp only [detect_collisions, List.filterMap_cons, hmk, List.map_cons]
          exact ih.cons _
      | some c =>
          have hcd : c.collision_date = item.date := by
            obtain ⟨_, hdef⟩ := mkCollision_eq_some.mp hmk
            rw [hdef]
          simp only [detect_collisions, List.filterMap_cons, hmk, List.map_cons, hcd]
          exact ih.cons₂ _

theorem fetchStages_forecast (env : Env) (org_id : ℤ)
    (hs4 : (fetchStages env org_id).error = none) :
    ∃ f, env.forecastResult = .ok f ∧ (fetchStages env org_id).forecast = f := by
  unfold fetchStages at hs4 ⊢
  cases ho : env.orgSummary with
  | error e =>
      simp [get_current_balance, get_forecast, get_mandatory_expenses_stage,
        get_credit_limits, ho] at hs4
  | ok org =>
      cases hp : env.payments with
      | error e =>
          simp [get_current_balance, get_forecast, get_mandatory_expenses_stage,
            get_credit_limits, ho, hp] at hs4
      | ok ps =>
          cases hf : env.forecastResult with
          | error e =>
              simp [get_current_balance, get_forecast,
                get_mandatory_expenses_stage, get_credit_limits, ho, hp, hf] at hs4
          | ok f =>
              refine ⟨f, rfl, ?_⟩
              rcases hb : env.billsResult with e | bills <;>
                rcases hc : env.orgSummary2 with e2 | org2 <;>
                simp [get_current_balance, get_forecast,
                  get_mandatory_expenses_stage, get_credit_limits, ho, hp, hf,
                  hb, hc]

unseal Rat.mul Rat.inv Rat.add Rat.sub in
/-- C10: in every successful report whose underlying forecast has strictly
ascending dates, first_collision is the earliest-dated collision (captured
in detection order before the severity re-sort, then updated in place by
the later passes), while the emergency_action_plan is built from the head
of the severity-sorted list; on the concrete demo environment the two
differ: first_collision is the day-1 collision with score 39.2 while the
sorted head is the day-10 collision with score 79.5. -/
theorem C10_first_collision_semantics :
    (∀ (env : Env) (org_id : ℤ) (r : Report),
      (runCollisionPipeline env org_id).output = some (.success r) →
      (∀ f, env.forecastResult = .ok f →
        f.Pairwise (fun a b => a.date < b.date)) →
      ∀ fc, r.first_collision = some fc →
        ∀ c ∈ r.collisions_91d, fc.collision_date ≤ c.collision_date) ∧
    (∀ (env : Env) (org_id : ℤ) (r : Report),
      (runCollisionPipeline env org_id).output = some (.success r) →
      ∀ hd, r.collisions_91d.head? = some hd →
        (hd.severity ∈ (["critical", "high"] : List String) →
          r.emergency_action_plan
            = some (mkEmergencyPlan r.current_position.available_credit hd)) ∧
        (hd.severity ∉ (["critical", "high"] : List String) →
          r.emergency_action_plan = none)) ∧
    ((runCollisionPipeline demoEnv 1).output = some (.success demoReport) ∧
      demoReport.first_collision = some demoFirst ∧
      demoFirst.collision_date = 1 ∧ demoFirst.severity_score = 196/5 ∧
      demoReport.collisions_91d.head? = some demoHead ∧
      demoHead.collision_date = 10 ∧ demoHead.severity_score = 159/2 ∧
      demoFirst.severity_score < demoHead.severity_score) := by
  refine ⟨?_, ?_, ?_⟩
  · intro env org_id r hout hfsort fc hfc c hc
    rw [runCollisionPipeline] at hout
    cases hs4 : (fetchStages env org_id).error with
    | some msg =>
        rw [pipeline_tail_error env _ msg hs4] at hout
        simp at hout
    | none =>
        obtain ⟨f, hfres, hs4f⟩ := fetchStages_forecast env org_id hs4
        obtain ⟨rep, ho2, hcols, hfirst, _, _⟩ :=
          pipeline_tail_success env (fetchStages env org_id) hs4
        rw [ho2] at hout
        have hr : r = rep := by simpa using hout.symm
        subst hr
        set cols := detect_collisions env.today
          (fetchStages env org_id).minimum_balance
          (fetchStages env org_id).available_credit
          (fetchStages env org_id).mandatory_expenses
          (fetchStages env org_id).forecast with hcolsdef
        rw [hfirst] at hfc
        cases hhead : cols.head? with
        | none =>
            rw [hhead] at hfc
            simp at hfc
        | some c0 =>
            rw [hhead] at hfc
            simp only [Option.map_some'] at hfc
            have hfc2 := Option.some_inj.mp hfc
            have hfcdate : fc.collision_date = c0.collision_date := by
              rw [← hfc2, generate_mitigation_for_date, addSeverity_date]
            have hfsorted : (f.map ForecastItem.date).Pairwise
                (fun a b => a < b) :=
              List.pairwise_map.mpr (hfsort f hfres)
            have hsub := detect_dates_sublist env.today
              (fetchStages env org_id).minimum_balance
              (fetchStages env org_id).available_credit
              (fetchStages env org_id).mandatory_expenses
              (fetchStages env org_id).forecast
            have hsorted : (cols.map Collision.collision_date).Pairwise
                (fun a b => a < b) := by
              have hfsorted2 : (((fetchStages env org_id).forecast).map
                  ForecastItem.date).Pairwise (fun a b => a < b) := by
                rw [hs4f]
                exact hfsorted
              exact hfsorted2.sublist hsub
            rw [hcols] at hc
            obtain ⟨c2, hc2mem, hc2eq⟩ := List.mem_map.mp hc
            obtain ⟨c0', hc0'mem, hc0'eq⟩ := mem_analyze_severity hc2mem
            have hcdate : c.collision_date = c0'.collision_date := by
              rw [← hc2eq, generate_mitigation_for_date, hc0'eq, addSeverity_date]
            obtain ⟨tail, hcols_eq⟩ : ∃ t, cols = c0 :: t := by
              cases hcl : cols with
              | nil => rw [hcl] at hhead; simp at hhead
              | cons a t =>
                  rw [hcl] at hhead
                  simp only [List.head?_cons, Option.some_inj] at hhead
                  exact ⟨t, by rw [hhead]⟩
            rw [hcols_eq] at hsorted hc0'mem
            rcases List.mem_cons.mp hc0'mem with he | he
            · rw [hfcdate, hcdate, he]
            · have hlt : c0.collision_date < c0'.collision_date := by
                rw [List.map_cons] at hsorted
                exact List.rel_of_pairwise_cons hsorted
                  (List.mem_map.mpr ⟨c0', he, rfl⟩)
              rw [hfcdate, hcdate]
              exact le_of_lt hlt
  · intro env org_id r hout hd hhd
    rw [runCollisionPipeline] at hout
    cases hs4 : (fetchStages env org_id).error with
    | some msg =>
        rw [pipeline_tail_error env _ msg hs4] at hout
        simp at hout
    | none =>
        obtain ⟨rep, ho2, hcols, _, hplan, hcred⟩ :=
          pipeline_tail_success env (fetchStages env org_id) hs4
        rw [ho2] at hout
        have hr : r = rep := by simpa using hout.symm
        subst hr
        constructor
        · intro hmem
          rw [hplan, hhd]
          simp only [if_pos hmem]
          rw [hcred]
        · intro hnmem
          rw [hplan, hhd]
          simp only [if_neg hnmem]
  · exact ⟨by decide, by decide, by decide, by decide, by decide, by decide,
      by decide, by decide⟩

unseal Rat.mul Rat.inv Rat.add Rat.sub in
/-- Witness for C10_first_collision_semantics on the demo environment. -/
theorem C10_first_collision_semantics_witness :
    demoFirst.collision_date ≤ demoHead.collision_date ∧
    demoReport.emergency_action_plan
      = some (mkEmergencyPlan demoReport.current_position.available_credit
          demoHead) := by
  have hout : (runCollisionPipeline demoEnv 1).output
      = some (.success demoReport) := by decide
  constructor
  · refine C10_first_collision_semantics.1 demoEnv 1 demoReport hout ?_ demoFirst
      (by decide) demoHead (by decide)
    intro f hf
    have hf2 : (Except.ok [{ date := 1, predicted_balance := 0 },
        { date := 10, predicted_balance := -1999999000 }] :
          Except String (List ForecastItem)) = .ok f := hf
    injection hf2 with h3
    subst h3
    decide
  · exact (C10_first_collision_semantics.2.1 demoEnv 1 demoReport hout demoHead
      (by decide)).1 (by decide)
